import Mathlib

/-!
Shallow embedding of the DotMatrixPrometheus repository
(src/metrics_base.py and src/dashboard.py).

Instants on the timeline are modelled as integers counting seconds, so a
Python `timedelta(minutes=m)` is `m * 60` seconds and
`timedelta.total_seconds()` is the integer difference itself.  Rational
numbers stand in for Python floats where the code divides
(`total_seconds() / 60`, `math.ceil(n / cols)`); on the values the code
actually computes these divisions are exact, so the embedding is faithful.
-/

/-- The local `total_minutes` of `calculate_step` (metrics_base.py lines
96-97): `duration = end_time - start_time; total_minutes =
duration.total_seconds() / 60`. -/
def total_minutes (start_time end_time : ℤ) : ℚ :=
  ((end_time - start_time : ℤ) : ℚ) / 60

/-- Embedding of `calculate_step` (metrics_base.py lines 91-112): the
ordered threshold chain over `total_minutes`. -/
def calculate_step (start_time end_time : ℤ) : String :=
  if total_minutes start_time end_time ≤ 60 then "30s"
  else if total_minutes start_time end_time ≤ 180 then "1m"
  else if total_minutes start_time end_time ≤ 720 then "2m"
  else if total_minutes start_time end_time ≤ 1440 then "5m"
  else if total_minutes start_time end_time ≤ 4320 then "15m"
  else if total_minutes start_time end_time ≤ 10080 then "30m"
  else "1h"

/-- Duration, in seconds, denoted by each of the seven step strings the
code can return (specification-side vocabulary used to state
monotonicity of the step choice). -/
def stepSeconds : String → ℚ
  | "30s" => 30
  | "1m" => 60
  | "2m" => 120
  | "5m" => 300
  | "15m" => 900
  | "30m" => 1800
  | "1h" => 3600
  | _ => 0

/-- Embedding of the time-range resolution at the top of
`MetricFetcher.get_data` (metrics_base.py lines 139-151): the
`is not None` if/elif chain that fills in the missing endpoint(s). -/
def get_data_window (now minutes : ℤ) (start_time end_time : Option ℤ) : ℤ × ℤ :=
  if start_time.isSome ∧ end_time.isSome then
    (start_time.getD 0, end_time.getD 0)
  else if start_time.isSome then
    (start_time.getD 0, now)
  else if end_time.isSome then
    (end_time.getD 0 - minutes * 60, end_time.getD 0)
  else
    (now - minutes * 60, now)

/-- Default of the `minutes` parameter in the signature of
`MetricFetcher.get_data` (metrics_base.py line 120). -/
def get_data_minutes_default : ℤ := 60

/-- Default of the `--minutes` command-line option in `create_parser`
(dashboard.py lines 720-725). -/
def parser_minutes_default : ℤ := 60

/-- Embedding of the dashboard entry point's time-range validation
followed by `get_data`'s window resolution (dashboard.py lines 923-925
then metrics_base.py lines 139-151): the run aborts with an error naming
both instants only when both `--from` and `--to` were parsed and
`start_time >= end_time`; otherwise the resolved window is used. -/
def dashboard_resolve (now minutes : ℤ) (start_time end_time : Option ℤ) :
    Except (ℤ × ℤ) (ℤ × ℤ) :=
  if start_time.isSome ∧ end_time.isSome ∧ start_time.getD 0 ≥ end_time.getD 0 then
    .error (start_time.getD 0, end_time.getD 0)
  else
    .ok (get_data_window now minutes start_time end_time)

/-- Truthiness of the `cols` argument as tested by `if cols:` in
`calculate_grid` (dashboard.py line 45): `None` and `0` are falsy. -/
def py_truthy : Option ℤ → Bool
  | none => false
  | some c => c != 0

/-- Embedding of `calculate_grid` (dashboard.py lines 43-65).  The
returned pair is `(rows, cols)`; `math.ceil(num_charts / cols)` is the
rational ceiling. -/
def calculate_grid (num_charts : ℕ) (cols : Option ℤ) : ℤ × ℤ :=
  if py_truthy cols then
    (⌈(num_charts : ℚ) / ((cols.getD 0 : ℤ) : ℚ)⌉, cols.getD 0)
  else if num_charts = 1 then (1, 1)
  else if num_charts = 2 then (1, 2)
  else if num_charts ≤ 4 then (2, 2)
  else if num_charts ≤ 6 then (2, 3)
  else if num_charts ≤ 9 then (3, 3)
  else if num_charts ≤ 12 then (3, 4)
  else (⌈(num_charts : ℚ) / 4⌉, 4)

/-- Python `range(0, stop, step)` for a positive `step`: the multiples of
`step` below `stop`. -/
def py_range (stop step : ℕ) : List ℕ :=
  (List.range ((stop + step - 1) / step)).map (fun i => i * step)

/-- The tick-label index selection shared by `draw_chart` (dashboard.py
lines 112-120, cap 10) and `draw_multi_chart` (lines 187-196, cap 5):
`num_labels = min(cap, len)`; if `len > num_labels` the indices are
`range(0, len, len // num_labels)`, otherwise every index. -/
def chart_label_indices (cap len : ℕ) : List ℕ :=
  let num_labels := min cap len
  if len > num_labels then py_range len (len / num_labels)
  else List.range len

/-- Label indices used by the single full-size chart (`draw_chart`,
cap 10). -/
def draw_chart_label_indices (len : ℕ) : List ℕ :=
  chart_label_indices 10 len

/-- Label indices used by one grid panel (`draw_multi_chart`, cap 5). -/
def draw_multi_label_indices (len : ℕ) : List ℕ :=
  chart_label_indices 5 len

/-- C1: `MetricFetcher.get_data` resolves the queried window by the
four-way case split: both endpoints given keeps them; start only gives
`[start, now)`; end only gives `[end - minutes, end)`; neither gives
`[now - minutes, now)`; and the lookback `minutes` parameter defaults to
60 both in `get_data` and in the command-line parser. -/
theorem get_data_window_cases (now minutes s e : ℤ) :
    get_data_window now minutes (some s) (some e) = (s, e) ∧
    get_data_window now minutes (some s) none = (s, now) ∧
    get_data_window now minutes none (some e) = (e - minutes * 60, e) ∧
    get_data_window now minutes none none = (now - minutes * 60, now) ∧
    get_data_minutes_default = 60 ∧ parser_minutes_default = 60 := by
  refine ⟨?_, ?_, ?_, ?_, rfl, rfl⟩ <;> simp [get_data_window]

set_option maxHeartbeats 1600000 in
/-- C2: `calculate_step` always returns one of the seven fixed step
strings, chosen by the ordered threshold table over the window length in
total minutes (first match wins), and the chosen step duration is
monotonic non-decreasing in the window length. -/
theorem calculate_step_table_monotone (s e : ℤ) :
    calculate_step s e ∈ ["30s", "1m", "2m", "5m", "15m", "30m", "1h"] ∧
    (total_minutes s e ≤ 60 → calculate_step s e = "30s") ∧
    (60 < total_minutes s e → total_minutes s e ≤ 180 → calculate_step s e = "1m") ∧
    (180 < total_minutes s e → total_minutes s e ≤ 720 → calculate_step s e = "2m") ∧
    (720 < total_minutes s e → total_minutes s e ≤ 1440 → calculate_step s e = "5m") ∧
    (1440 < total_minutes s e → total_minutes s e ≤ 4320 → calculate_step s e = "15m") ∧
    (4320 < total_minutes s e → total_minutes s e ≤ 10080 → calculate_step s e = "30m") ∧
    (10080 < total_minutes s e → calculate_step s e = "1h") ∧
    (∀ s2 e2 : ℤ, total_minutes s e ≤ total_minutes s2 e2 →
      stepSeconds (calculate_step s e) ≤ stepSeconds (calculate_step s2 e2)) := by
  refine ⟨?_, ?_, ?_, ?_, ?_, ?_, ?_, ?_, ?_⟩
  · unfold calculate_step
    split_ifs <;> simp
  · intro h; unfold calculate_step; split_ifs <;> first | rfl | linarith
  · intro h1 h2; unfold calculate_step; split_ifs <;> first | rfl | linarith
  · intro h1 h2; unfold calculate_step; split_ifs <;> first | rfl | linarith
  · intro h1 h2; unfold calculate_step; split_ifs <;> first | rfl | linarith
  · intro h1 h2; unfold calculate_step; split_ifs <;> first | rfl | linarith
  · intro h1 h2; unfold calculate_step; split_ifs <;> first | rfl | linarith
  · intro h1; unfold calculate_step; split_ifs <;> first | rfl | linarith
  · intro s2 e2 h
    unfold calculate_step
    have q1 : stepSeconds "30s" = 30 := rfl
    have q2 : stepSeconds "1m" = 60 := rfl
    have q3 : stepSeconds "2m" = 120 := rfl
    have q4 : stepSeconds "5m" = 300 := rfl
    have q5 : stepSeconds "15m" = 900 := rfl
    have q6 : stepSeconds "30m" = 1800 := rfl
    have q7 : stepSeconds "1h" = 3600 := rfl
    split_ifs <;>
      first
      | linarith
      | (simp only [q1, q2, q3, q4, q5, q6, q7]; norm_num)

/-- Witness for C2 at concrete windows: a one-hour window gets step
"30s", an eight-day window gets "1h", and the durations are ordered. -/
theorem calculate_step_table_monotone_witness :
    calculate_step 0 3600 = "30s" ∧ calculate_step 0 700000 = "1h" ∧
    stepSeconds (calculate_step 0 3600) ≤ stepSeconds (calculate_step 0 700000) := by
  refine ⟨(calculate_step_table_monotone 0 3600).2.1 (by norm_num [total_minutes]),
    ?_, ?_⟩
  · exact (calculate_step_table_monotone 0 700000).2.2.2.2.2.2.2.1
      (by norm_num [total_minutes])
  · exact (calculate_step_table_monotone 0 3600).2.2.2.2.2.2.2.2 0 700000
      (by norm_num [total_minutes])

/-- C3 counterexample: with only a start time supplied (a start in the
future of `now`), the resolution performs no range check and yields a
window whose start is at or after its end — no RangeError is raised. -/
theorem dashboard_resolve_missed_check :
    dashboard_resolve 1000 60 (some 2000) none = .ok (2000, 1000) ∧
    (2000 : ℤ) ≥ 1000 := by
  constructor
  · simp [dashboard_resolve, get_data_window]
  · norm_num

/-- C3 amended: the RangeError check runs only when both start and end
are supplied — there it fires exactly when `start >= end`, naming both
resolved instants, and the window that survives it has `start < end`;
in the other three resolution cases no check is performed and the
resolved window is returned unconditionally. -/
theorem dashboard_resolve_check_only_both (now minutes s e : ℤ) :
    (s ≥ e → dashboard_resolve now minutes (some s) (some e) = .error (s, e)) ∧
    (s < e → dashboard_resolve now minutes (some s) (some e) = .ok (s, e)) ∧
    (∀ w, dashboard_resolve now minutes (some s) (some e) = .ok w → w.1 < w.2) ∧
    dashboard_resolve now minutes (some s) none = .ok (s, now) ∧
    dashboard_resolve now minutes none (some e) = .ok (e - minutes * 60, e) ∧
    dashboard_resolve now minutes none none = .ok (now - minutes * 60, now) := by
  refine ⟨fun h => ?_, fun h => ?_, fun w hw => ?_, ?_, ?_, ?_⟩
  · simp [dashboard_resolve, h]
  · simp only [dashboard_resolve]
    rw [if_neg (by simp; omega)]
    simp [get_data_window]
  · obtain ⟨w1, w2⟩ := w
    by_cases hse : s ≥ e
    · simp [dashboard_resolve, hse] at hw
    · simp only [dashboard_resolve] at hw
      rw [if_neg (by simp; omega)] at hw
      simp [get_data_window] at hw
      simp only [hw.1, hw.2]
      omega
  · simp [dashboard_resolve, get_data_window]
  · simp [dashboard_resolve, get_data_window]
  · simp [dashboard_resolve, get_data_window]

/-- Witness for C3 amended at concrete instants: equal endpoints are
rejected with an error naming them; an ordered pair is accepted. -/
theorem dashboard_resolve_check_only_both_witness :
    dashboard_resolve 0 60 (some 5) (some 5) = .error (5, 5) ∧
    dashboard_resolve 0 60 (some 3) (some 5) = .ok (3, 5) := by
  exact ⟨(dashboard_resolve_check_only_both 0 60 5 5).1 (by norm_num),
    (dashboard_resolve_check_only_both 0 60 3 5).2.1 (by norm_num)⟩

/-- C10: a supplied column count of 0 is falsy for `if cols:`, so the
override branch is skipped and the automatic lookup decides the grid —
no division by zero can occur. -/
theorem calculate_grid_zero_cols (n : ℕ) :
    calculate_grid n (some 0) = calculate_grid n none := by
  simp [calculate_grid, py_truthy]

/-- C5 counterexample: a series of length 97 under the single-chart cap
of 10 gets stride 9 and shows the labels at indices 0,9,...,90 — that is
11 labels, one more than the cap of 10 the claim promises is never
exceeded. -/
theorem draw_chart_labels_97_exceed_cap :
    draw_chart_label_indices 97 = [0, 9, 18, 27, 36, 45, 54, 63, 72, 81, 90] ∧
    (draw_chart_label_indices 97).length = 11 := by
  constructor <;> decide

/-- C5 amended: for a series longer than the cap the displayed label
indices are `range(0, len, len // cap)` — the multiples of the stride
`floor(len/cap)` below `len` — and the number of displayed labels is
`ceil(len / stride)`, which can exceed the cap but never reaches twice
the cap (at most `2*cap - 1` labels). -/
theorem chart_label_indices_stride (cap len : ℕ) (hcap : 0 < cap)
    (hlen : cap < len) :
    chart_label_indices cap len = py_range len (len / cap) ∧
    (chart_label_indices cap len).length = (len + len / cap - 1) / (len / cap) ∧
    (∀ j ∈ chart_label_indices cap len, (len / cap) ∣ j ∧ j < len) ∧
    (chart_label_indices cap len).length ≤ 2 * cap - 1 := by
  have hmin : min cap len = cap := min_eq_left hlen.le
  have hs : 1 ≤ len / cap := (Nat.one_le_div_iff hcap).mpr hlen.le
  have heq : chart_label_indices cap len = py_range len (len / cap) := by
    simp only [chart_label_indices, hmin]
    rw [if_pos hlen]
  have hlenq : (chart_label_indices cap len).length =
      (len + len / cap - 1) / (len / cap) := by
    rw [heq]; simp [py_range]
  refine ⟨heq, hlenq, ?_, ?_⟩
  · intro j hj
    rw [heq] at hj
    simp only [py_range, List.mem_map, List.mem_range] at hj
    obtain ⟨i, hi, rfl⟩ := hj
    refine ⟨dvd_mul_left _ _, ?_⟩
    have hq : ((len + len / cap - 1) / (len / cap)) * (len / cap) ≤
        len + len / cap - 1 := Nat.div_mul_le_self _ _
    have hstep : (i + 1) * (len / cap) ≤
        ((len + len / cap - 1) / (len / cap)) * (len / cap) :=
      Nat.mul_le_mul_right _ hi
    have hkey : i * (len / cap) + (len / cap) ≤ len + len / cap - 1 := by
      calc i * (len / cap) + (len / cap) = (i + 1) * (len / cap) := by ring
        _ ≤ ((len + len / cap - 1) / (len / cap)) * (len / cap) := hstep
        _ ≤ len + len / cap - 1 := hq
    set t := i * (len / cap) with ht
    omega
  · rw [hlenq]
    set s := len / cap with hsdef
    have hmod : len = cap * s + len % cap := by
      rw [hsdef]; exact (Nat.div_add_mod len cap).symm
    have hr : len % cap < cap := Nat.mod_lt _ hcap
    have hs1 : s = 1 + (s - 1) := by omega
    have hcs : cap + (s - 1) ≤ cap * s := by
      calc cap + (s - 1) ≤ cap + cap * (s - 1) :=
            Nat.add_le_add_left (Nat.le_mul_of_pos_left _ hcap) _
        _ = cap * (1 + (s - 1)) := by ring
        _ = cap * s := by rw [← hs1]
    have hlt : len + s - 1 < 2 * (cap * s) := by
      set u := cap * s with hu
      omega
    have hdiv : (len + s - 1) / s < 2 * cap := by
      rw [Nat.div_lt_iff_lt_mul (by omega : 0 < s)]
      calc len + s - 1 < 2 * (cap * s) := hlt
        _ = 2 * cap * s := by ring
    omega

/-- Witness for C5 amended at the claim's own instance: cap 10 and
length 97 give exactly the `range(0, 97, 9)` indices and at most 19
labels. -/
theorem chart_label_indices_stride_witness :
    chart_label_indices 10 97 = py_range 97 (97 / 10) ∧
    (chart_label_indices 10 97).length ≤ 2 * 10 - 1 := by
  exact ⟨(chart_label_indices_stride 10 97 (by norm_num) (by norm_num)).1,
    (chart_label_indices_stride 10 97 (by norm_num) (by norm_num)).2.2.2⟩

/-- C8 counterexample: for 17 panels with no column override the code
returns `(rows, cols) = (ceil(17/4), 4) = (5, 4)`, not the claimed
`(4, ceil(17/4)) = (4, 5)`. -/
theorem calculate_grid_17_auto :
    calculate_grid 17 none = (5, 4) ∧
    calculate_grid 17 none ≠ (4, (⌈(17 : ℚ) / 4⌉ : ℤ)) := by
  have h : calculate_grid 17 none = (5, 4) := by
    simp only [calculate_grid, py_truthy]
    norm_num [Int.ceil_eq_iff]
  refine ⟨h, ?_⟩
  rw [h]
  have hc2 : (⌈(17 : ℚ) / 4⌉ : ℤ) = 5 := by
    norm_num [Int.ceil_eq_iff]
  simp [hc2]

/-- C8 amended: with a supplied positive column count `calculate_grid`
returns `(ceil(n/cols), cols)`; without one the fixed lookup gives
1→(1,1), 2→(1,2), 3-4→(2,2), 5-6→(2,3), 7-9→(3,3), 10-12→(3,4) and,
for n > 12, `(ceil(n/4), 4)` — four columns, not four rows; in every
such case `rows * cols >= n`. -/
theorem calculate_grid_spec (n : ℕ) (c : ℤ) (hn : 1 ≤ n) :
    (0 < c → calculate_grid n (some c) = (⌈(n : ℚ) / (c : ℚ)⌉, c)) ∧
    (n = 1 → calculate_grid n none = (1, 1)) ∧
    (n = 2 → calculate_grid n none = (1, 2)) ∧
    (3 ≤ n → n ≤ 4 → calculate_grid n none = (2, 2)) ∧
    (5 ≤ n → n ≤ 6 → calculate_grid n none = (2, 3)) ∧
    (7 ≤ n → n ≤ 9 → calculate_grid n none = (3, 3)) ∧
    (10 ≤ n → n ≤ 12 → calculate_grid n none = (3, 4)) ∧
    (12 < n → calculate_grid n none = (⌈(n : ℚ) / 4⌉, 4)) ∧
    (0 < c → (calculate_grid n (some c)).1 * (calculate_grid n (some c)).2 ≥ (n : ℤ)) ∧
    (calculate_grid n none).1 * (calculate_grid n none).2 ≥ (n : ℤ) := by
  have hover : 0 < c → calculate_grid n (some c) = (⌈(n : ℚ) / (c : ℚ)⌉, c) := by
    intro hc
    simp only [calculate_grid, py_truthy]
    rw [if_pos (by simp; omega)]
    simp
  have hceil : ∀ d : ℤ, 0 < d → (n : ℤ) ≤ ⌈(n : ℚ) / (d : ℚ)⌉ * d := by
    intro d hd
    have hd0 : (0 : ℚ) < (d : ℚ) := by exact_mod_cast hd
    have h1 : ((n : ℚ) / (d : ℚ)) ≤ (⌈(n : ℚ) / (d : ℚ)⌉ : ℚ) :=
      Int.le_ceil _
    have h2 : (n : ℚ) ≤ (⌈(n : ℚ) / (d : ℚ)⌉ : ℚ) * (d : ℚ) :=
      (div_le_iff hd0).mp h1
    exact_mod_cast h2
  refine ⟨hover, ?_, ?_, ?_, ?_, ?_, ?_, ?_, ?_, ?_⟩
  · intro h
    subst h
    simp [calculate_grid, py_truthy]
  · intro h
    subst h
    simp [calculate_grid, py_truthy]
  · intro h1 h2
    simp only [calculate_grid, py_truthy]
    rw [if_neg (by simp), if_neg (by omega), if_neg (by omega), if_pos h2]
  · intro h1 h2
    simp only [calculate_grid, py_truthy]
    rw [if_neg (by simp), if_neg (by omega), if_neg (by omega),
      if_neg (by omega), if_pos h2]
  · intro h1 h2
    simp only [calculate_grid, py_truthy]
    rw [if_neg (by simp), if_neg (by omega), if_neg (by omega),
      if_neg (by omega), if_neg (by omega), if_pos h2]
  · intro h1 h2
    simp only [calculate_grid, py_truthy]
    rw [if_neg (by simp), if_neg (by omega), if_neg (by omega),
      if_neg (by omega), if_neg (by omega), if_neg (by omega), if_pos h2]
  · intro h1
    simp only [calculate_grid, py_truthy]
    rw [if_neg (by simp), if_neg (by omega), if_neg (by omega),
      if_neg (by omega), if_neg (by omega), if_neg (by omega), if_neg (by omega)]
  · intro hc
    rw [hover hc]
    exact hceil c hc
  · by_cases h1 : n = 1
    · subst h1; simp [calculate_grid, py_truthy]
    · by_cases h2 : n = 2
      · subst h2; simp [calculate_grid, py_truthy]
      · by_cases h4 : n ≤ 4
        · simp only [calculate_grid, py_truthy]
          rw [if_neg (by simp), if_neg (by omega), if_neg (by omega), if_pos h4]
          simp only []
          push_cast
          omega
        · by_cases h6 : n ≤ 6
          · simp only [calculate_grid, py_truthy]
            rw [if_neg (by simp), if_neg (by omega), if_neg (by omega),
              if_neg (by omega), if_pos h6]
            simp only []
            push_cast
            omega
          · by_cases h9 : n ≤ 9
            · simp only [calculate_grid, py_truthy]
              rw [if_neg (by simp), if_neg (by omega), if_neg (by omega),
                if_neg (by omega), if_neg (by omega), if_pos h9]
              simp only []
              push_cast
              omega
            · by_cases h12 : n ≤ 12
              · simp only [calculate_grid, py_truthy]
                rw [if_neg (by simp), if_neg (by omega), if_neg (by omega),
                  if_neg (by omega), if_neg (by omega), if_neg (by omega),
                  if_pos h12]
                simp only []
                push_cast
                omega
              · simp only [calculate_grid, py_truthy]
                rw [if_neg (by simp), if_neg (by omega), if_neg (by omega),
                  if_neg (by omega), if_neg (by omega), if_neg (by omega),
                  if_neg (by omega)]
                exact hceil 4 (by norm_num)

/-- Witness for C8 amended at the claim's boundary instances:
`calculate_grid(5, cols=3)` is `(2, 3)` and satisfies the invariant. -/
theorem calculate_grid_spec_witness :
    calculate_grid 5 (some 3) = (⌈(5 : ℚ) / 3⌉, 3) ∧
    (calculate_grid 5 (some 3)).1 * (calculate_grid 5 (some 3)).2 ≥ (5 : ℤ) := by
  exact ⟨(calculate_grid_spec 5 3 (by norm_num)).1 (by norm_num),
    (calculate_grid_spec 5 3 (by norm_num)).2.2.2.2.2.2.2.2.1 (by norm_num)⟩

/-- Kind of the transport-layer exception raised inside
`prom.custom_query_range`, distinguishing the classes named by the two
`except` clauses of `get_data` (metrics_base.py lines 165 and 182). -/
inductive ExcKind where
  | connectionError
  | newConnectionError
  | maxRetryError
  | requestException
deriving DecidableEq

/-- A transport exception: its kind, its own message (`str(e)`), and the
messages of its nested `__cause__` chain, outermost first. -/
structure Exc where
  kind : ExcKind
  msg : String
  causes : List String
deriving DecidableEq

/-- The root-cause extraction of the first `except` clause
(metrics_base.py lines 166-171): start from `str(e)`, replace by
`str(e.__cause__)` when present, then by `str(e.__cause__.__cause__)`
when present — exactly two levels of unwrapping, never deeper. -/
def root_error_msg (e : Exc) : String :=
  match e.causes with
  | [] => e.msg
  | [c1] => c1
  | _ :: c2 :: _ => c2

/-- Lines of the message raised for `(ConnectionError,
NewConnectionError, MaxRetryError)` (metrics_base.py lines 173-181). -/
def connection_error_lines (url : String) (e : Exc) : List String :=
  ["Cannot connect to Prometheus at " ++ url,
   "   Error: " ++ root_error_msg e,
   "",
   "   Please check:",
   "   • The Prometheus URL is correct",
   "   • The server is running and accessible",
   "   • Network/DNS configuration",
   "   • Firewall settings"]

/-- Lines of the message raised for a plain `RequestException`
(metrics_base.py lines 182-189): `str(e)` itself, no cause unwrapping,
and only a two-item checklist. -/
def request_error_lines (url : String) (e : Exc) : List String :=
  ["Request to Prometheus failed at " ++ url,
   "   Error: " ++ e.msg,
   "",
   "   Please check:",
   "   • The Prometheus URL is correct",
   "   • The server is running and accessible"]

/-- The one error type `get_data` raises on any transport failure. -/
inductive RaisedError where
  | prometheusConnectionError (message_lines : List String)
deriving DecidableEq

/-- The exception handling of `get_data` (metrics_base.py lines
158-189): the first `except` clause catches the three connection-class
kinds, the second catches the remaining `RequestException`; both raise
`PrometheusConnectionError`. -/
def get_data_raise (url : String) (e : Exc) : RaisedError :=
  match e.kind with
  | .requestException => .prometheusConnectionError (request_error_lines url e)
  | _ => .prometheusConnectionError (connection_error_lines url e)

/-- One series of a Prometheus range-query response: its list of
`(timestamp, value)` sample pairs (the `values` key). -/
structure PromSeries where
  values : List (ℚ × ℚ)
deriving DecidableEq

/-- The post-query processing of `get_data` (metrics_base.py lines
191-219): an empty result list returns the `(None, None)` no-data pair;
otherwise only the first series is kept, each timestamp is formatted
with the multi-day format when `duration.days > 0` and the same-day
format otherwise (the formatting functions are the external `strftime`
collaborators), and the metric's optional `transform` is applied to
every value. -/
def get_data_result (transform : Option (ℚ → ℚ)) (fmt_day fmt_time : ℚ → String)
    (start_time end_time : ℤ) (result : List PromSeries) :
    Option (List String × List ℚ) :=
  match result with
  | [] => none
  | r :: _ =>
    let data_points := r.values
    let duration_days := Int.fdiv (end_time - start_time) 86400
    let x_labels := data_points.map fun p =>
      if duration_days > 0 then fmt_day p.1 else fmt_time p.1
    let y_values := data_points.map fun p =>
      match transform with
      | some t => t p.2
      | none => p.2
    some (x_labels, y_values)

/-- The fetch step of `get_data` (metrics_base.py lines 158-219): the
backend either raises a transport exception — classified by the
`except` clauses — or returns a (possibly empty) list of series that is
processed into the `(x_labels, y_values)` pair. -/
def get_data_fetch (url : String) (transform : Option (ℚ → ℚ))
    (fmt_day fmt_time : ℚ → String) (start_time end_time : ℤ)
    (resp : Except Exc (List PromSeries)) :
    Except RaisedError (Option (List String × List ℚ)) :=
  match resp with
  | .error e => .error (get_data_raise url e)
  | .ok result =>
    .ok (get_data_result transform fmt_day fmt_time start_time end_time result)

/-- The fixed colour palette `CHART_COLORS` (dashboard.py line 40). -/
def CHART_COLORS : List String :=
  ["green", "cyan", "yellow", "magenta", "red", "blue", "orange", "white"]

/-- What `draw_multi_chart` draws into one subplot: either a plotted
series with its colour, or the `plt.plot([0], [0])` placeholder. -/
inductive Panel where
  | plotted (x_labels : List String) (y : List ℚ) (color : String)
  | placeholder
deriving DecidableEq

/-- The `all_data` accumulation loop of `draw_multi_chart` (dashboard.py
lines 157-166): a fetch result whose labels and values are both truthy
is kept, anything else is recorded as the `(None, None)` entry. -/
def multi_all_data (results : List (Option (List String × List ℚ))) :
    List (Option (List String × List ℚ)) :=
  results.map fun r =>
    match r with
    | some (xs, ys) => if xs ≠ [] ∧ ys ≠ [] then some (xs, ys) else none
    | none => none

/-- The subplot-drawing decision for entry `i` of `all_data`
(dashboard.py lines 176-200): plot with the cycled palette colour when
labels and values are truthy, otherwise draw the placeholder. -/
def panel_of (i : ℕ) (d : Option (List String × List ℚ)) : Panel :=
  match d with
  | some (xs, ys) =>
    if xs ≠ [] ∧ ys ≠ [] then
      .plotted xs ys (CHART_COLORS.getD (i % CHART_COLORS.length) "")
    else .placeholder
  | none => .placeholder

/-- The full panel list `draw_multi_chart` draws, one panel per
requested metric, in order (dashboard.py lines 157-207). -/
def draw_multi_panels (results : List (Option (List String × List ℚ))) :
    List Panel :=
  (multi_all_data results).enum.map fun p => panel_of p.1 p.2

/-- C6: a backend response with zero series is success, not an error —
`get_data` returns the no-data pair instead of raising — and in grid
rendering every requested metric still gets a panel: an empty fetch
result becomes a placeholder panel while any other panel with data is
plotted as usual. -/
theorem empty_series_is_success (url : String) (transform : Option (ℚ → ℚ))
    (fmt_day fmt_time : ℚ → String) (s e : ℤ)
    (results : List (Option (List String × List ℚ))) (i : ℕ) :
    get_data_fetch url transform fmt_day fmt_time s e (.ok []) = .ok none ∧
    (draw_multi_panels results).length = results.length ∧
    (results[i]? = some none →
      (draw_multi_panels results)[i]? = some .placeholder) ∧
    (∀ xs ys, results[i]? = some (some (xs, ys)) → xs ≠ [] → ys ≠ [] →
      (draw_multi_panels results)[i]? =
        some (.plotted xs ys (CHART_COLORS.getD (i % CHART_COLORS.length) ""))) := by
  refine ⟨rfl, ?_, ?_, ?_⟩
  · simp [draw_multi_panels, multi_all_data]
  · intro h
    simp only [draw_multi_panels, List.getElem?_map, List.getElem?_enum,
      multi_all_data, List.getElem?_map, h]
    rfl
  · intro xs ys h hxs hys
    simp only [draw_multi_panels, List.getElem?_map, List.getElem?_enum,
      multi_all_data, List.getElem?_map, h]
    simp [panel_of, hxs, hys]

/-- Witness for C6 at a concrete render: a two-metric batch where the
second fetch came back empty draws the first panel and a placeholder
for the second. -/
theorem empty_series_is_success_witness :
    get_data_fetch "http://localhost:9090" none (fun _ => "d") (fun _ => "t")
      0 60 (.ok []) = .ok none ∧
    (draw_multi_panels [some (["08:00"], [1]), none])[1]? =
      some .placeholder ∧
    (draw_multi_panels [some (["08:00"], [1]), none])[0]? =
      some (.plotted ["08:00"] [1] "green") := by
  refine ⟨(empty_series_is_success "http://localhost:9090" none
      (fun _ => "d") (fun _ => "t") 0 60 [] 0).1, ?_, ?_⟩
  · exact (empty_series_is_success "u" none (fun _ => "d") (fun _ => "t") 0 60
      [some (["08:00"], [1]), none] 1).2.2.1 rfl
  · exact (empty_series_is_success "u" none (fun _ => "d") (fun _ => "t") 0 60
      [some (["08:00"], [1]), none] 0).2.2.2 ["08:00"] [1] rfl
      (by simp) (by simp)

/-- C7 counterexample: a generic `RequestException` with a two-level
cause chain is reported through the second `except` clause, whose
message carries `str(e)` itself — not the unwrapped root cause — and
omits the network/DNS and firewall checklist items, so the claimed
uniform message shape fails. -/
theorem request_exception_not_uniform :
    get_data_raise "http://prom:9090"
        ⟨.requestException, "request failed", ["level1", "rootcause"]⟩ =
      .prometheusConnectionError
        (request_error_lines "http://prom:9090"
          ⟨.requestException, "request failed", ["level1", "rootcause"]⟩) ∧
    "   Error: rootcause" ∉
      request_error_lines "http://prom:9090"
        ⟨.requestException, "request failed", ["level1", "rootcause"]⟩ ∧
    "   • Firewall settings" ∉
      request_error_lines "http://prom:9090"
        ⟨.requestException, "request failed", ["level1", "rootcause"]⟩ ∧
    "   • Network/DNS configuration" ∉
      request_error_lines "http://prom:9090"
        ⟨.requestException, "request failed", ["level1", "rootcause"]⟩ := by
  refine ⟨rfl, ?_, ?_, ?_⟩ <;> decide

/-- C7 amended: every transport failure is raised as the single
`PrometheusConnectionError` kind, but the message shape depends on the
exception class: the connection-class failures (`ConnectionError`,
`NewConnectionError`, `MaxRetryError`) get a message naming the backend
URL, the root cause obtained by unwrapping up to two levels of nested
causes, and the four-item checklist (URL, reachability, network/DNS,
firewall); a plain `RequestException` gets a shorter message naming the
URL and the exception's own text with only the two-item checklist and
no cause unwrapping. -/
theorem get_data_raise_by_class (url : String) (e : Exc) :
    (e.kind ≠ .requestException →
      get_data_raise url e =
        .prometheusConnectionError (connection_error_lines url e) ∧
      ("Cannot connect to Prometheus at " ++ url) ∈ connection_error_lines url e ∧
      ("   Error: " ++ root_error_msg e) ∈ connection_error_lines url e ∧
      "   • The Prometheus URL is correct" ∈ connection_error_lines url e ∧
      "   • The server is running and accessible" ∈ connection_error_lines url e ∧
      "   • Network/DNS configuration" ∈ connection_error_lines url e ∧
      "   • Firewall settings" ∈ connection_error_lines url e) ∧
    (e.kind = .requestException →
      get_data_raise url e =
        .prometheusConnectionError (request_error_lines url e) ∧
      ("Request to Prometheus failed at " ++ url) ∈ request_error_lines url e ∧
      ("   Error: " ++ e.msg) ∈ request_error_lines url e ∧
      "   • The Prometheus URL is correct" ∈ request_error_lines url e ∧
      "   • The server is running and accessible" ∈ request_error_lines url e) ∧
    (∀ c1 c2 rest, e.causes = c1 :: c2 :: rest → root_error_msg e = c2) ∧
    (∀ c1, e.causes = [c1] → root_error_msg e = c1) ∧
    (e.causes = [] → root_error_msg e = e.msg) := by
  refine ⟨fun hk => ?_, fun hk => ?_, fun c1 c2 rest hc => ?_,
    fun c1 hc => ?_, fun hc => ?_⟩
  · refine ⟨?_, by simp [connection_error_lines]⟩
    obtain ⟨k, m, c⟩ := e
    cases k <;> first | rfl | exact absurd rfl hk
  · refine ⟨?_, by simp [request_error_lines]⟩
    obtain ⟨k, m, c⟩ := e
    cases k <;> first | rfl | exact absurd hk (by simp_all)
  · simp [root_error_msg, hc]
  · simp [root_error_msg, hc]
  · simp [root_error_msg, hc]

/-- Witness for C7 amended: a `MaxRetryError` whose nested causes end in
a DNS failure is reported with the unwrapped root cause and the firewall
item; a bare `RequestException` is reported with its own text. -/
theorem get_data_raise_by_class_witness :
    get_data_raise "http://prom:9090"
        ⟨.maxRetryError, "retries exhausted", ["conn", "dns failure"]⟩ =
      .prometheusConnectionError
        (connection_error_lines "http://prom:9090"
          ⟨.maxRetryError, "retries exhausted", ["conn", "dns failure"]⟩) ∧
    ("   Error: " ++
        root_error_msg ⟨.maxRetryError, "retries exhausted", ["conn", "dns failure"]⟩) ∈
      connection_error_lines "http://prom:9090"
        ⟨.maxRetryError, "retries exhausted", ["conn", "dns failure"]⟩ ∧
    root_error_msg ⟨.maxRetryError, "retries exhausted", ["conn", "dns failure"]⟩ =
      "dns failure" ∧
    get_data_raise "u" ⟨.requestException, "boom", []⟩ =
      .prometheusConnectionError (request_error_lines "u" ⟨.requestException, "boom", []⟩) := by
  refine ⟨?_, ?_, ?_, ?_⟩
  · exact ((get_data_raise_by_class "http://prom:9090"
      ⟨.maxRetryError, "retries exhausted", ["conn", "dns failure"]⟩).1
      (by simp)).1
  · exact ((get_data_raise_by_class "http://prom:9090"
      ⟨.maxRetryError, "retries exhausted", ["conn", "dns failure"]⟩).1
      (by simp)).2.2.1
  · exact (get_data_raise_by_class "http://prom:9090"
      ⟨.maxRetryError, "retries exhausted", ["conn", "dns failure"]⟩).2.2.1
      "conn" "dns failure" [] rfl
  · exact ((get_data_raise_by_class "u" ⟨.requestException, "boom", []⟩).2.1 rfl).1

/-- A parsed datetime as Python's `datetime.strptime` builds it: the
fields `parse_datetime` reads and rewrites.  Unmatched fields keep
strptime's defaults (year 1900, January 1st, midnight). -/
structure PyDateTime where
  year : ℤ
  month : ℕ
  day : ℕ
  hour : ℕ
  minute : ℕ
  second : ℕ
deriving DecidableEq

/-- Initial state of a strptime match: 1900-01-01 00:00:00. -/
def strptime_default : PyDateTime := ⟨1900, 1, 1, 0, 0, 0⟩

/-- One directive of a strptime format string, covering exactly the
directives the `formats` list of `parse_datetime` uses (metrics_base.py
lines 33-67): `%Y %m %d %H %M %S %b %B`, literal characters, and the
whitespace runs CPython compiles to one-or-more whitespace. -/
inductive Dir where
  | year
  | monthNum
  | dayNum
  | hourNum
  | minuteNum
  | secondNum
  | monthAbbr
  | monthName
  | lit (c : Char)
  | ws
deriving DecidableEq

/-- Numeric value of a decimal digit character. -/
def digitVal (c : Char) : ℕ := c.toNat - '0'.toNat

/-- CPython's regex for `%Y`: exactly four decimal digits. -/
def matchYear4 : List Char → Option (ℕ × List Char)
  | c1 :: c2 :: c3 :: c4 :: rest =>
    if c1.isDigit ∧ c2.isDigit ∧ c3.isDigit ∧ c4.isDigit then
      some (digitVal c1 * 1000 + digitVal c2 * 100 + digitVal c3 * 10 +
        digitVal c4, rest)
    else none
  | _ => none

/-- CPython's regex for `%m`: the ordered alternation
`1[0-2] | 0[1-9] | [1-9]`. -/
def matchMonthNum : List Char → Option (ℕ × List Char)
  | c1 :: c2 :: rest =>
    if c1 = '1' ∧ '0' ≤ c2 ∧ c2 ≤ '2' then some (10 + digitVal c2, rest)
    else if c1 = '0' ∧ '1' ≤ c2 ∧ c2 ≤ '9' then some (digitVal c2, rest)
    else if '1' ≤ c1 ∧ c1 ≤ '9' then some (digitVal c1, c2 :: rest)
    else none
  | [c1] => if '1' ≤ c1 ∧ c1 ≤ '9' then some (digitVal c1, []) else none
  | [] => none

/-- CPython's regex for `%d`: `3[01] | [12]\d | 0[1-9] | [1-9]`. -/
def matchDayNum : List Char → Option (ℕ × List Char)
  | c1 :: c2 :: rest =>
    if c1 = '3' ∧ (c2 = '0' ∨ c2 = '1') then some (30 + digitVal c2, rest)
    else if (c1 = '1' ∨ c1 = '2') ∧ c2.isDigit then
      some (digitVal c1 * 10 + digitVal c2, rest)
    else if c1 = '0' ∧ '1' ≤ c2 ∧ c2 ≤ '9' then some (digitVal c2, rest)
    else if '1' ≤ c1 ∧ c1 ≤ '9' then some (digitVal c1, c2 :: rest)
    else none
  | [c1] => if '1' ≤ c1 ∧ c1 ≤ '9' then some (digitVal c1, []) else none
  | [] => none

/-- CPython's regex for `%H`: `2[0-3] | [0-1]\d | \d`. -/
def matchHourNum : List Char → Option (ℕ × List Char)
  | c1 :: c2 :: rest =>
    if c1 = '2' ∧ '0' ≤ c2 ∧ c2 ≤ '3' then some (20 + digitVal c2, rest)
    else if (c1 = '0' ∨ c1 = '1') ∧ c2.isDigit then
      some (digitVal c1 * 10 + digitVal c2, rest)
    else if c1.isDigit then some (digitVal c1, c2 :: rest)
    else none
  | [c1] => if c1.isDigit then some (digitVal c1, []) else none
  | [] => none

/-- CPython's regex for `%M`: `[0-5]\d | \d`. -/
def matchMinuteNum : List Char → Option (ℕ × List Char)
  | c1 :: c2 :: rest =>
    if '0' ≤ c1 ∧ c1 ≤ '5' ∧ c2.isDigit then
      some (digitVal c1 * 10 + digitVal c2, rest)
    else if c1.isDigit then some (digitVal c1, c2 :: rest)
    else none
  | [c1] => if c1.isDigit then some (digitVal c1, []) else none
  | [] => none

/-- CPython's regex for `%S`: `6[0-1] | [0-5]\d | \d`. -/
def matchSecondNum : List Char → Option (ℕ × List Char)
  | c1 :: c2 :: rest =>
    if c1 = '6' ∧ (c2 = '0' ∨ c2 = '1') then some (60 + digitVal c2, rest)
    else if '0' ≤ c1 ∧ c1 ≤ '5' ∧ c2.isDigit then
      some (digitVal c1 * 10 + digitVal c2, rest)
    else if c1.isDigit then some (digitVal c1, c2 :: rest)
    else none
  | [c1] => if c1.isDigit then some (digitVal c1, []) else none
  | [] => none

/-- Case-insensitive match of a (lowercase) name against a prefix of the
input; returns the remaining input. -/
def matchNameCI : List Char → List Char → Option (List Char)
  | [], cs => some cs
  | _ :: _, [] => none
  | n :: ns, c :: cs => if c.toLower = n then matchNameCI ns cs else none

/-- English month abbreviations, as matched by `%b` (IGNORECASE). -/
def MONTH_ABBRS : List String :=
  ["jan", "feb", "mar", "apr", "may", "jun", "jul", "aug", "sep", "oct",
   "nov", "dec"]

/-- Full English month names, as matched by `%B` (IGNORECASE). -/
def MONTH_NAMES : List String :=
  ["january", "february", "march", "april", "may", "june", "july",
   "august", "september", "october", "november", "december"]

/-- Try each month name in order, returning its 1-based index and the
remaining input on the first match. -/
def matchMonthAux (i : ℕ) : List String → List Char → Option (ℕ × List Char)
  | [], _ => none
  | n :: ns, cs =>
    match matchNameCI n.toList cs with
    | some rest => some (i, rest)
    | none => matchMonthAux (i + 1) ns cs

/-- Consume any further whitespace characters (the greedy tail of the
`\s+` CPython compiles a format-string space to). -/
def consumeWS : List Char → List Char
  | c :: cs => if c = ' ' ∨ c = '\t' ∨ c = '\n' ∨ c = '\r' then consumeWS cs
    else c :: cs
  | [] => []

/-- Match one-or-more whitespace characters. -/
def matchWS : List Char → Option (List Char)
  | c :: cs =>
    if c = ' ' ∨ c = '\t' ∨ c = '\n' ∨ c = '\r' then some (consumeWS cs)
    else none
  | [] => none

/-- Run one directive against the input, updating the field it binds;
literal characters match case-insensitively (the pattern is compiled
with IGNORECASE). -/
def stepDir : Dir → PyDateTime → List Char → Option (PyDateTime × List Char)
  | .year, st, cs => (matchYear4 cs).map fun p => ({ st with year := (p.1 : ℤ) }, p.2)
  | .monthNum, st, cs => (matchMonthNum cs).map fun p => ({ st with month := p.1 }, p.2)
  | .dayNum, st, cs => (matchDayNum cs).map fun p => ({ st with day := p.1 }, p.2)
  | .hourNum, st, cs => (matchHourNum cs).map fun p => ({ st with hour := p.1 }, p.2)
  | .minuteNum, st, cs => (matchMinuteNum cs).map fun p => ({ st with minute := p.1 }, p.2)
  | .secondNum, st, cs => (matchSecondNum cs).map fun p => ({ st with second := p.1 }, p.2)
  | .monthAbbr, st, cs =>
    (matchMonthAux 1 MONTH_ABBRS cs).map fun p => ({ st with month := p.1 }, p.2)
  | .monthName, st, cs =>
    (matchMonthAux 1 MONTH_NAMES cs).map fun p => ({ st with month := p.1 }, p.2)
  | .lit c, st, cs =>
    match cs with
    | c2 :: rest => if c2.toLower = c.toLower then some (st, rest) else none
    | [] => none
  | .ws, st, cs => (matchWS cs).map fun rest => (st, rest)

/-- Run a whole directive list left to right. -/
def runDirs : List Dir → PyDateTime → List Char → Option (PyDateTime × List Char)
  | [], st, cs => some (st, cs)
  | d :: ds, st, cs =>
    match stepDir d st cs with
    | some (st2, cs2) => runDirs ds st2 cs2
    | none => none

/-- Gregorian leap-year rule used by `datetime`'s constructor. -/
def isLeapYear (y : ℤ) : Bool :=
  decide ((y % 4 = 0 ∧ ¬y % 100 = 0) ∨ y % 400 = 0)

/-- Days in a month, for the date validation `datetime` performs. -/
def daysInMonth (y : ℤ) (m : ℕ) : ℕ :=
  if m = 2 then (if isLeapYear y then 29 else 28)
  else if m = 4 ∨ m = 6 ∨ m = 9 ∨ m = 11 then 30
  else 31

/-- The day-of-month validity check the `datetime` constructor applies
to the matched fields (an invalid date raises `ValueError`, which the
loop of `parse_datetime` treats as a non-match). -/
def validDate (dt : PyDateTime) : Bool :=
  decide (1 ≤ dt.day ∧ dt.day ≤ daysInMonth dt.year dt.month)

/-- Python's `datetime.strptime(s, fmt)`: match the whole input against
the directive list (trailing unconverted data is an error) and validate
the resulting date. -/
def strptime_fmt (dirs : List Dir) (s : String) : Option PyDateTime :=
  match runDirs dirs strptime_default s.toList with
  | some (dt, []) => if validDate dt then some dt else none
  | _ => none

/-- The 24-entry `formats` list of `parse_datetime` (metrics_base.py
lines 33-67), in source order, each format translated directive by
directive. -/
def parse_formats : List (List Dir) :=
  [[.year, .lit '-', .monthNum, .lit '-', .dayNum, .ws, .hourNum, .lit ':', .minuteNum],
   [.year, .lit '-', .monthNum, .lit '-', .dayNum, .ws, .hourNum, .lit ':', .minuteNum,
    .lit ':', .secondNum],
   [.year, .lit '-', .monthNum, .lit '-', .dayNum, .lit 'T', .hourNum, .lit ':', .minuteNum],
   [.year, .lit '-', .monthNum, .lit '-', .dayNum, .lit 'T', .hourNum, .lit ':', .minuteNum,
    .lit ':', .secondNum],
   [.year, .lit '/', .monthNum, .lit '/', .dayNum, .ws, .hourNum, .lit ':', .minuteNum],
   [.year, .lit '/', .monthNum, .lit '/', .dayNum, .ws, .hourNum, .lit ':', .minuteNum,
    .lit ':', .secondNum],
   [.monthNum, .lit '-', .dayNum, .ws, .hourNum, .lit ':', .minuteNum],
   [.monthNum, .lit '/', .dayNum, .ws, .hourNum, .lit ':', .minuteNum],
   [.dayNum, .lit '-', .monthNum, .ws, .hourNum, .lit ':', .minuteNum],
   [.monthAbbr, .ws, .dayNum, .ws, .hourNum, .lit ':', .minuteNum],
   [.monthName, .ws, .dayNum, .ws, .hourNum, .lit ':', .minuteNum],
   [.dayNum, .ws, .monthAbbr, .ws, .hourNum, .lit ':', .minuteNum],
   [.dayNum, .ws, .monthName, .ws, .hourNum, .lit ':', .minuteNum],
   [.monthAbbr, .ws, .dayNum, .ws, .year, .ws, .hourNum, .lit ':', .minuteNum],
   [.monthName, .ws, .dayNum, .ws, .year, .ws, .hourNum, .lit ':', .minuteNum],
   [.dayNum, .lit '-', .monthAbbr, .lit '-', .year, .ws, .hourNum, .lit ':', .minuteNum],
   [.dayNum, .lit '-', .monthName, .lit '-', .year, .ws, .hourNum, .lit ':', .minuteNum],
   [.hourNum, .lit ':', .minuteNum],
   [.hourNum, .lit ':', .minuteNum, .lit ':', .secondNum],
   [.year, .lit '-', .monthNum, .lit '-', .dayNum],
   [.monthNum, .lit '-', .dayNum],
   [.monthNum, .lit '/', .dayNum],
   [.monthAbbr, .ws, .dayNum],
   [.monthName, .ws, .dayNum]]

/-- The format-trying loop of `parse_datetime` (metrics_base.py lines
69-79): on the first successful match, a year of 1900 (strptime's
default when the format carried no year) is replaced with the default
year; formats failing to match are skipped; an empty list means every
format failed (the `ValueError` at the end). -/
def parse_go (default_year : ℤ) (s : String) : List (List Dir) → Option PyDateTime
  | [] => none
  | f :: fs =>
    match strptime_fmt f s with
    | some dt =>
      some (if dt.year = 1900 then { dt with year := default_year } else dt)
    | none => parse_go default_year s fs

/-- The raw first-match result of the format loop, before the year-1900
replacement (specification-side vocabulary for stating when the
replacement fires). -/
def try_formats (s : String) : List (List Dir) → Option PyDateTime
  | [] => none
  | f :: fs =>
    match strptime_fmt f s with
    | some dt => some dt
    | none => try_formats s fs

/-- Drop leading whitespace characters from a character list. -/
def dropWS : List Char → List Char
  | c :: cs =>
    if c = ' ' ∨ c = '\t' ∨ c = '\n' ∨ c = '\r' then dropWS cs else c :: cs
  | [] => []

/-- Python's `str.strip()`: whitespace removed from both ends. -/
def py_strip (s : String) : String :=
  String.mk ((dropWS (dropWS s.data).reverse).reverse)

/-- Embedding of `parse_datetime` (metrics_base.py lines 13-88):
`default_year` falls back to the current year, the input is stripped,
and the format list is tried in order. -/
def parse_datetime (dt_string : String) (default_year : Option ℤ)
    (now_year : ℤ) : Option PyDateTime :=
  parse_go (default_year.getD now_year) (py_strip dt_string) parse_formats

/-- A directive other than `%Y` never writes the year field. -/
theorem stepDir_preserves_year (d : Dir) (hd : d ≠ Dir.year)
    (st st2 : PyDateTime) (cs cs2 : List Char)
    (h : stepDir d st cs = some (st2, cs2)) : st2.year = st.year := by
  cases d with
  | year => exact absurd rfl hd
  | monthNum =>
    simp only [stepDir, Option.map_eq_some'] at h
    obtain ⟨p, _, hpe⟩ := h
    rw [Prod.mk.injEq] at hpe
    rw [← hpe.1]
  | dayNum =>
    simp only [stepDir, Option.map_eq_some'] at h
    obtain ⟨p, _, hpe⟩ := h
    rw [Prod.mk.injEq] at hpe
    rw [← hpe.1]
  | hourNum =>
    simp only [stepDir, Option.map_eq_some'] at h
    obtain ⟨p, _, hpe⟩ := h
    rw [Prod.mk.injEq] at hpe
    rw [← hpe.1]
  | minuteNum =>
    simp only [stepDir, Option.map_eq_some'] at h
    obtain ⟨p, _, hpe⟩ := h
    rw [Prod.mk.injEq] at hpe
    rw [← hpe.1]
  | secondNum =>
    simp only [stepDir, Option.map_eq_some'] at h
    obtain ⟨p, _, hpe⟩ := h
    rw [Prod.mk.injEq] at hpe
    rw [← hpe.1]
  | monthAbbr =>
    simp only [stepDir, Option.map_eq_some'] at h
    obtain ⟨p, _, hpe⟩ := h
    rw [Prod.mk.injEq] at hpe
    rw [← hpe.1]
  | monthName =>
    simp only [stepDir, Option.map_eq_some'] at h
    obtain ⟨p, _, hpe⟩ := h
    rw [Prod.mk.injEq] at hpe
    rw [← hpe.1]
  | lit c =>
    cases cs with
    | nil => simp [stepDir] at h
    | cons c2 rest =>
      simp only [stepDir] at h
      split at h
      · rw [Option.some.injEq, Prod.mk.injEq] at h
        rw [← h.1]
      · exact absurd h (by simp)
  | ws =>
    simp only [stepDir, Option.map_eq_some'] at h
    obtain ⟨p, _, hpe⟩ := h
    rw [Prod.mk.injEq] at hpe
    rw [← hpe.1]

/-- A directive list without `%Y` leaves the year at its input value. -/
theorem runDirs_preserves_year (ds : List Dir) (hds : Dir.year ∉ ds)
    (st st2 : PyDateTime) (cs cs2 : List Char)
    (h : runDirs ds st cs = some (st2, cs2)) : st2.year = st.year := by
  induction ds generalizing st cs with
  | nil =>
    simp only [runDirs, Option.some.injEq, Prod.mk.injEq] at h
    rw [← h.1]
  | cons d ds ih =>
    simp only [runDirs] at h
    rcases hsd : stepDir d st cs with _ | ⟨st3, cs3⟩
    · rw [hsd] at h; exact absurd h (by simp)
    · rw [hsd] at h
      have hd : d ≠ Dir.year := fun hdy => hds (hdy ▸ List.mem_cons_self d ds)
      have h1 := stepDir_preserves_year d hd st st3 cs cs3 hsd
      have h2 := ih (fun hm => hds (List.mem_cons_of_mem d hm)) st3 cs3 h
      rw [h2, h1]

/-- A format without a year directive can only produce strptime's
default year 1900. -/
theorem strptime_fmt_no_year (f : List Dir) (hf : Dir.year ∉ f) (s : String)
    (r : PyDateTime) (h : strptime_fmt f s = some r) : r.year = 1900 := by
  simp only [strptime_fmt] at h
  rcases hrun : runDirs f strptime_default s.toList with _ | ⟨dt, rest⟩
  · rw [hrun] at h; exact absurd h (by simp)
  · rw [hrun] at h
    cases rest with
    | cons c cs => exact absurd h (by simp)
    | nil =>
      have hy := runDirs_preserves_year f hf strptime_default dt
        s.toList [] hrun
      have h2 : (if validDate dt = true then some dt else none) = some r := h
      split at h2
      · rw [Option.some.injEq] at h2
        rw [← h2]
        exact hy
      · exact absurd h2 (by simp)

/-- C9 counterexample: the input "1900-05-01 08:00" matches the first
format, which does contain a year component, and the year written in
the text is 1900 — yet `parse_datetime` overwrites it with
`default_year` (here 2024), because the code keys the overwrite on the
sentinel value 1900 rather than on the matched format. -/
theorem parse_datetime_year_1900_overwritten :
    strptime_fmt
        [Dir.year, Dir.lit '-', Dir.monthNum, Dir.lit '-', Dir.dayNum, Dir.ws,
         Dir.hourNum, Dir.lit ':', Dir.minuteNum] "1900-05-01 08:00" =
      some ⟨1900, 5, 1, 8, 0, 0⟩ ∧
    parse_datetime "1900-05-01 08:00" none 2024 = some ⟨2024, 5, 1, 8, 0, 0⟩ ∧
    (2024 : ℤ) ≠ 1900 := by
  refine ⟨by decide, by decide, by decide⟩

/-- C9 amended: the year-overwrite of `parse_datetime` fires exactly
when the raw strptime result's year equals the sentinel 1900: every
format without a year directive yields 1900 and is therefore always
overwritten with `default_year`, while a format with a year returns the
written year unchanged unless that year is itself 1900, in which case
it too is overwritten. -/
theorem parse_go_year_overwrite (s : String) (dy : ℤ) (fmts : List (List Dir))
    (raw : PyDateTime) :
    (try_formats s fmts = some raw →
      (raw.year = 1900 → parse_go dy s fmts = some { raw with year := dy }) ∧
      (raw.year ≠ 1900 → parse_go dy s fmts = some raw)) ∧
    (∀ f ∈ fmts, Dir.year ∉ f → ∀ r, strptime_fmt f s = some r →
      r.year = 1900) ∧
    (∀ d n, parse_datetime s d n = parse_go (d.getD n) (py_strip s) parse_formats) := by
  refine ⟨?_, fun f _ hf r hr => strptime_fmt_no_year f hf s r hr,
    fun d n => rfl⟩
  induction fmts with
  | nil => intro h; exact absurd h (by simp [try_formats])
  | cons f fs ih =>
    intro h
    rcases hsf : strptime_fmt f s with _ | dt
    · simp only [try_formats, hsf] at h
      have := ih h
      constructor
      · intro hy
        simp only [parse_go, hsf]
        exact this.1 hy
      · intro hy
        simp only [parse_go, hsf]
        exact this.2 hy
    · simp only [try_formats, hsf, Option.some.injEq] at h
      subst h
      constructor
      · intro hy
        simp only [parse_go, hsf, hy, if_pos]
      · intro hy
        simp only [parse_go, hsf, if_neg hy]

/-- Witness for C9 amended: "11-13 08:00" matches the yearless
`%m-%d %H:%M` format with raw year 1900, so the parse returns it with
the default year 2024 substituted. -/
theorem parse_go_year_overwrite_witness :
    parse_go 2024 "11-13 08:00" parse_formats =
      some ⟨2024, 11, 13, 8, 0, 0⟩ := by
  have h := (parse_go_year_overwrite "11-13 08:00" 2024 parse_formats
    ⟨1900, 11, 13, 8, 0, 0⟩).1 (by decide)
  exact h.1 rfl

/-- C4: the docstring of `parse_datetime` promises that a bare
time-of-day input "08:00" uses today's date, but the implementation
only substitutes the strptime default year: parsing "08:00" returns
January 1st of the default year at 08:00, with the month and day fields
untouched at strptime's 1/1 defaults — the result never depends on
today's month or day.  Bare date-only inputs do resolve to 00:00 on the
written day. -/
theorem parse_datetime_bare_time_jan_first :
    parse_datetime "08:00" none 2026 = some ⟨2026, 1, 1, 8, 0, 0⟩ ∧
    parse_datetime "08:15:30" none 2026 = some ⟨2026, 1, 1, 8, 15, 30⟩ ∧
    parse_datetime "2024-11-13" none 2026 = some ⟨2024, 11, 13, 0, 0, 0⟩ ∧
    parse_datetime "11-13" none 2024 = some ⟨2024, 11, 13, 0, 0, 0⟩ := by
  refine ⟨by decide, by decide, by decide, by decide⟩
